import Mathlib

/-!
Verification development for the IIHRA risk-assessment pipeline.

This file gives a shallow embedding of `src/rule_engine.py` and
`src/ml_model.py` and proves theorems about it.

Modelling conventions:
* A pandas cell holding free text is a `Cell`: either a string or NaN
  (a missing value).  Python's `str(x)` renders NaN as the string "nan".
* Numeric cells (Age, BMI) are `Option ℚ`: `none` is NaN; any `>`
  comparison with NaN is `false`, as in IEEE arithmetic.
* Python code that can raise is modelled in `Except String`; the error
  string names the Python exception that would be raised.
-/

namespace IIHRA

/-- Lowercasing of one ASCII character, the effect of Python `str.lower`
on the data handled here. -/
def lowerChar (c : Char) : Char :=
  if 65 ≤ c.toNat ∧ c.toNat ≤ 90 then Char.ofNat (c.toNat + 32) else c

/-- Python `s.lower()`. -/
def strLower (s : String) : String :=
  String.mk (s.data.map lowerChar)

/-- Whitespace test for Python `str.strip`. -/
def isSpaceChar (c : Char) : Bool :=
  c == ' ' || c == '\t' || c == '\n' || c == '\r'

/-- Python `s.strip()`: removes leading and trailing whitespace. -/
def strStrip (s : String) : String :=
  String.mk (((s.data.dropWhile isSpaceChar).reverse.dropWhile isSpaceChar).reverse)

/-- Comma splitting on character lists; `splitComma "" = [""]`,
matching Python `"".split(",")`. -/
def splitComma : List Char → List (List Char)
  | [] => [[]]
  | c :: cs =>
    if c = ',' then [] :: splitComma cs
    else
      match splitComma cs with
      | t :: ts => (c :: t) :: ts
      | [] => [[c]]

/-- Python `s.split(',')`. -/
def strSplitComma (s : String) : List String :=
  (splitComma s.data).map String.mk

/-- A pandas cell holding free text: a string, or NaN (a missing value). -/
inductive Cell
  | text (s : String)
  | nan
  deriving DecidableEq, Repr

/-- Python `str(x)` applied to a cell: NaN renders as the string "nan". -/
def Cell.pyStr : Cell → String
  | .text s => s
  | .nan => "nan"

/-- Python `x.lower()` on a cell: NaN is a float and raises AttributeError. -/
def Cell.pyLower : Cell → Except String String
  | .text s => .ok (strLower s)
  | .nan => .error "AttributeError: float object has no attribute lower"

/-- Python `cell == lit` comparing a cell against a string literal:
NaN compares unequal to every string. -/
def Cell.eqStr : Cell → String → Bool
  | .text s, t => s == t
  | .nan, _ => false

/-- Python `bmi > bound` where `bmi` may be NaN: NaN comparisons are false. -/
def numGt (x : Option ℚ) (bound : ℚ) : Bool :=
  match x with
  | some v => decide (bound < v)
  | none => false

/-- The tokenizer used by `check_allergy_risk` and
`check_ingredient_risk_level`:
`[a.strip().lower() for a in str(x).split(',') if str(a).strip()]`. -/
def tokenize (x : Cell) : List String :=
  ((strSplitComma x.pyStr).filter (fun a => strStrip a != "")).map
    (fun a => strLower (strStrip a))

/-- Python substring test `needle in hay` on strings. -/
def pyIn (needle hay : String) : Bool :=
  decide (needle.toList <:+: hay.toList)

deriving instance DecidableEq for Except

/-- A row of the Users table.  Free-text columns are `Cell`s; Age and BMI
are numeric (`none` = NaN). -/
structure User where
  UserID : String
  Age : Option ℚ
  BMI : Option ℚ
  SkinType : Cell
  Allergies : Cell
  HormoneLevel : Cell
  deriving DecidableEq, Repr

/-- A row of the Trends table; the field `TrendType` embeds the source
column `Type` (`Type` is reserved in Lean). -/
structure Trend where
  TrendName : String
  TrendType : Cell
  KeyIngredients : Cell
  deriving DecidableEq, Repr

/-- A row of the IngredientRisk table. -/
structure IngredientRisk where
  Ingredient : String
  RiskLevel : String
  deriving DecidableEq, Repr

/-- The severity-weight table returned by `RuleEngine._define_risk_rules`. -/
structure RiskRules where
  Allergy : Nat
  Skincare_Mismatch : Nat
  Diet_Mismatch : Nat
  Banned_Ingredient : Nat
  deriving DecidableEq, Repr

/-- Translation of `RuleEngine._define_risk_rules`. -/
def define_risk_rules : RiskRules :=
  { Allergy := 3, Skincare_Mismatch := 2, Diet_Mismatch := 1, Banned_Ingredient := 3 }

/-- The `RuleEngine` object state set up by `__init__`. -/
structure RuleEngine where
  users_df : List User
  trends_df : List Trend
  ingredient_risk_df : List IngredientRisk
  deriving DecidableEq, Repr

/-- Field `self.risk_rules`, set by `__init__` to `_define_risk_rules()`. -/
def RuleEngine.risk_rules (_e : RuleEngine) : RiskRules := define_risk_rules

/-- Translation of `RuleEngine.check_allergy_risk`: both texts are run
through `str()` and tokenized, so this check never raises. -/
def RuleEngine.check_allergy_risk (e : RuleEngine)
    (user_allergies trend_ingredients : Cell) : Nat :=
  let ua := tokenize user_allergies
  let ti := tokenize trend_ingredients
  if ti.any (fun ing => ua.contains ing) then e.risk_rules.Allergy else 0

/-- Translation of `RuleEngine.check_skincare_risk`.  Python short-circuits
the two equality tests before evaluating `trend_ingredients.lower()`, which
raises when the ingredients cell is NaN (a float). -/
def RuleEngine.check_skincare_risk (e : RuleEngine)
    (skin_type trend_type trend_ingredients : Cell) : Except String Nat :=
  if trend_type.eqStr "Skincare" && skin_type.eqStr "Sensitive" then do
    let low ← trend_ingredients.pyLower
    pure (if pyIn "acid" low then e.risk_rules.Skincare_Mismatch else 0)
  else pure 0

/-- Translation of `RuleEngine.check_diet_risk`; same short-circuit shape as
the skincare check. -/
def RuleEngine.check_diet_risk (e : RuleEngine)
    (bmi : Option ℚ) (trend_type trend_ingredients : Cell) : Except String Nat :=
  if trend_type.eqStr "Dietary" && numGt bmi 30 then do
    let low ← trend_ingredients.pyLower
    pure (if pyIn "detox" low then e.risk_rules.Diet_Mismatch else 0)
  else pure 0

/-- Translation of `RuleEngine.check_ingredient_risk_level`. -/
def RuleEngine.check_ingredient_risk_level (e : RuleEngine)
    (trend_ingredients : Cell) : Nat :=
  let ti := tokenize trend_ingredients
  let high_risk :=
    (e.ingredient_risk_df.filter (fun r => r.RiskLevel == "High")).map
      (fun r => strLower r.Ingredient)
  if ti.any (fun ing => high_risk.contains ing) then e.risk_rules.Banned_Ingredient else 0

/-- The threshold step ending `_assess_risk_efficient`:
`if max_risk >= 3 … elif max_risk >= 1 … else …`. -/
def risk_level_score (max_risk : Nat) : String × Nat :=
  if max_risk ≥ 3 then ("High Risk", max_risk)
  else if max_risk ≥ 1 then ("Medium Risk", max_risk)
  else ("Safe", max_risk)

/-- Translation of `RuleEngine._assess_risk_efficient`: the four checks in
source order, `max` over the list of four scores, then the threshold. -/
def RuleEngine.assess_risk_efficient (e : RuleEngine) (user : User) (trend : Trend) :
    Except String (String × Nat) := do
  let r1 := e.check_allergy_risk user.Allergies trend.KeyIngredients
  let r2 ← e.check_skincare_risk user.SkinType trend.TrendType trend.KeyIngredients
  let r3 ← e.check_diet_risk user.BMI trend.TrendType trend.KeyIngredients
  let r4 := e.check_ingredient_risk_level trend.KeyIngredients
  pure (risk_level_score (max (max (max r1 r2) r3) r4))

/-- Translation of `RuleEngine.assess_risk`: a boolean-mask filter followed
by `.iloc[0]` selects the first row whose key matches and raises IndexError
when no row matches. -/
def RuleEngine.assess_risk (e : RuleEngine) (user_id trend_name : String) :
    Except String (String × Nat) :=
  match e.users_df.find? (fun u => u.UserID == user_id) with
  | none => .error "IndexError: single positional indexer is out-of-bounds"
  | some user =>
    match e.trends_df.find? (fun t => t.TrendName == trend_name) with
    | none => .error "IndexError: single positional indexer is out-of-bounds"
    | some trend => e.assess_risk_efficient user trend

/-- One row of the risk matrix, as appended by `generate_risk_matrix`. -/
structure RiskRow where
  UserID : String
  Age : Option ℚ
  BMI : Option ℚ
  SkinType : Cell
  Allergies : Cell
  HormoneLevel : Cell
  TrendName : String
  TrendType : Cell
  KeyIngredients : Cell
  RiskLevel : String
  RiskScore : Nat
  deriving DecidableEq, Repr

/-- Error-propagating map: the meaning of a Python `for` loop whose body may
raise — it stops at the first raising element. -/
def mapExcept (f : α → Except String β) : List α → Except String (List β)
  | [] => .ok []
  | x :: xs => do
    let y ← f x
    let ys ← mapExcept f xs
    pure (y :: ys)

/-- Body of the inner loop of `generate_risk_matrix`: assess one pair and
append one record. -/
def RuleEngine.makeRow (e : RuleEngine) (user_data : User) (trend_data : Trend) :
    Except String RiskRow := do
  let (risk_level, risk_score) ← e.assess_risk_efficient user_data trend_data
  pure { UserID := user_data.UserID, Age := user_data.Age, BMI := user_data.BMI,
         SkinType := user_data.SkinType, Allergies := user_data.Allergies,
         HormoneLevel := user_data.HormoneLevel,
         TrendName := trend_data.TrendName, TrendType := trend_data.TrendType,
         KeyIngredients := trend_data.KeyIngredients,
         RiskLevel := risk_level, RiskScore := risk_score }

/-- Translation of `RuleEngine.generate_risk_matrix`: nested loops, outer
over users in table order, inner over trends in table order, appending one
row per pair; a raise inside the body aborts the whole computation. -/
def RuleEngine.generate_risk_matrix (e : RuleEngine) : Except String (List RiskRow) := do
  let rowss ← mapExcept (fun u => mapExcept (fun t => e.makeRow u t) e.trends_df) e.users_df
  pure rowss.flatten

/-! The model-trainer side, `src/ml_model.py`. -/

/-- The lambda inside `_preprocess_features`:
`1 if str(x).lower() not in ('none', 'nan') else 0`. -/
def hasAllergiesFlag (x : Cell) : ℚ :=
  if strLower x.pyStr != "none" && strLower x.pyStr != "nan" then 1 else 0

/-- The raw feature row selected by `prepare_training_data`:
`risk_df[['Age', 'BMI', 'SkinType', 'Allergies', 'TrendType']]`. -/
structure XRow where
  Age : Option ℚ
  BMI : Option ℚ
  SkinType : Cell
  Allergies : Cell
  TrendType : Cell
  deriving DecidableEq, Repr

/-- The indicator-column names `pd.get_dummies` derives for one categorical
column: one column per distinct non-NaN value occurring in the table.
Pandas emits them in sorted order; column order is immaterial to every
claim, so first-occurrence order is used. -/
def dummy_columns (vals : List Cell) : List String :=
  (vals.filterMap (fun c => match c with | .text s => some s | .nan => none)).dedup

/-- The dummy entries for cell `c` over columns `cols`: one indicator value
per column.  Values are cells of the resulting frame (`Option ℚ`, `none`
being NaN); `get_dummies` always writes `0`/`1`, never NaN — in particular
a NaN input cell yields an all-zero row of indicators. -/
def dummies_for (cols : List String) (c : Cell) : List (String × Option ℚ) :=
  cols.map (fun v => (v, some (if c.eqStr v then (1 : ℚ) else 0)))

/-- A feature row after `_preprocess_features`: Age and BMI unchanged,
`SkinType`/`TrendType` replaced by indicator columns, and the `Allergies`
column dropped (`X_processed.drop(columns=['Allergies'])`) in favour of
`HasAllergies` — the drop is the absence of an `Allergies` field here. -/
structure XProcessedRow where
  Age : Option ℚ
  BMI : Option ℚ
  SkinType_dummies : List (String × Option ℚ)
  TrendType_dummies : List (String × Option ℚ)
  HasAllergies : Option ℚ
  deriving DecidableEq, Repr

/-- Translation of `MLModel._preprocess_features`. -/
def preprocess_features (X : List XRow) : List XProcessedRow :=
  let scols := dummy_columns (X.map (fun r => r.SkinType))
  let tcols := dummy_columns (X.map (fun r => r.TrendType))
  X.map (fun r =>
    { Age := r.Age, BMI := r.BMI,
      SkinType_dummies := dummies_for scols r.SkinType,
      TrendType_dummies := dummies_for tcols r.TrendType,
      HasAllergies := some (hasAllergiesFlag r.Allergies) })

/-- The per-row test applied by `X_processed.dropna()`: some column of the
processed row is NaN. -/
def XProcessedRow.hasNa (p : XProcessedRow) : Bool :=
  p.Age.isNone || p.BMI.isNone ||
    (p.SkinType_dummies.any (fun kv => kv.2.isNone)) ||
    (p.TrendType_dummies.any (fun kv => kv.2.isNone)) ||
    p.HasAllergies.isNone

/-- Translation of `LabelEncoder.fit_transform`: assign each distinct label
an integer code and encode the label vector.  sklearn assigns codes in
sorted label order; the assignment order is immaterial to every claim (the
encoding is injective either way), so first-occurrence order is used. -/
def label_fit_transform (y : List String) : List String × List Nat :=
  let classes := y.dedup
  (classes, y.map (fun s => classes.indexOf s))

/-- Translation of `MLModel.prepare_training_data`: generate the matrix,
select features and labels, preprocess, drop NaN feature rows
(`X_processed.dropna()`), apply the identical row filter to the labels
(`y = y[X_processed.index]`) and to the retained matrix
(`risk_df.loc[X_processed.index]`), then encode the labels.
The column selection `risk_df[['Age', 'BMI', 'SkinType', 'Allergies',
'TrendType']]` is `selectXRow` below. -/
def selectXRow (r : RiskRow) : XRow :=
  { Age := r.Age, BMI := r.BMI, SkinType := r.SkinType,
    Allergies := r.Allergies, TrendType := r.TrendType }

/-- Translation of `MLModel.prepare_training_data`; see the comment on
`selectXRow`.  When the matrix is empty, `pd.DataFrame([])` has no
columns and the column selection raises KeyError. -/
def prepare_training_data (e : RuleEngine) :
    Except String (List XProcessedRow × List Nat × List RiskRow) := do
  let risk_df ← e.generate_risk_matrix
  if risk_df.isEmpty then
    Except.error "KeyError: feature columns not in index"
  else
    let X := risk_df.map selectXRow
    let y := risk_df.map (fun r => r.RiskLevel)
    let X_processed := preprocess_features X
    let kept := (X_processed.zip (y.zip risk_df)).filter (fun pr => !(pr.1.hasNa))
    let X_clean := kept.map (fun pr => pr.1)
    let y_clean := kept.map (fun pr => pr.2.1)
    let risk_df_cleaned := kept.map (fun pr => pr.2.2)
    let y_encoded := (label_fit_transform y_clean).2
    pure (X_clean, y_encoded, risk_df_cleaned)

/-- Stand-in for sklearn `train_test_split(test_size=0.2, random_state=42)`:
`ceil(0.2 n)` rows form the test partition, and the library raises
ValueError whenever the remaining train partition would be empty — that
is, with fewer than two rows.  The library shuffles with the fixed seed
before splitting; which rows land in which partition is immaterial to
every claim here, which depend only on the split's success and failure
cases. -/
def train_test_split (X : List XProcessedRow) (y : List Nat) :
    Except String (List XProcessedRow × List XProcessedRow × List Nat × List Nat) :=
  let n_test := (X.length + 4) / 5
  let n_train := X.length - n_test
  if n_train = 0 then
    Except.error "ValueError: the resulting train set will be empty"
  else
    .ok (X.drop n_test, X.take n_test, y.drop n_test, y.take n_test)

/-- A fitted classifier handle.  No claim inspects the fitted model's
behaviour beyond `predict` being a function of the handle, so the handle
carries an abstract prediction function. -/
structure FittedModel where
  predict : List ℚ → Nat

/-- Stand-in for `RandomForestClassifier(n_estimators=100, random_state=42)`
followed by `.fit`: no claim constrains the fitted model, so the fit
returns a fixed handle. -/
def random_forest_fit (_X_train : List XProcessedRow) (_y_train : List Nat) : FittedModel :=
  { predict := fun _ => 0 }

/-- Translation of `MLModel.train_model` up to the point the claims reach:
the data is prepared and split FIRST — either step's raise propagates —
and only then is the requested `model_type` tested; an unsupported type
raises ValueError after that preparation and split.  The post-fit
evaluation metrics are outside every claim. -/
def train_model (e : RuleEngine) (model_type : String) : Except String FittedModel := do
  let (X_processed, y_encoded, _) ← prepare_training_data e
  let (X_train, _X_test, y_train, _y_test) ← train_test_split X_processed y_encoded
  if model_type == "random_forest" then
    pure (random_forest_fit X_train y_train)
  else
    Except.error "ValueError: Unsupported model type."

/-- The `MLModel` attribute `self.model`, `None` until training succeeds. -/
structure MLModelState where
  model : Option FittedModel

/-- Translation of `MLModel.predict_risk`: raises when `self.model is None`;
otherwise predicts on the hard-coded vector `np.array([1, 0, 1])`,
ignoring both feature-vector arguments (the source marks this as
placeholder logic). -/
def predict_risk (st : MLModelState) (_user_features _trend_features : List ℚ) :
    Except String Nat :=
  match st.model with
  | none => .error "Exception: Model not trained yet."
  | some m => .ok (m.predict [1, 0, 1])

/-! Helper lemmas. -/

/-- The pure threshold function on scores stated by the specification. -/
def risk_level_of (s : Nat) : String :=
  if s ≥ 3 then "High Risk" else if s ≥ 1 then "Medium Risk" else "Safe"

lemma risk_level_score_eq (s : Nat) : risk_level_score s = (risk_level_of s, s) := by
  unfold risk_level_score risk_level_of
  by_cases h3 : s ≥ 3 <;> by_cases h1 : s ≥ 1 <;> simp [h3, h1]

lemma risk_level_of_iffs (s : Nat) :
    (risk_level_of s = "Safe" ↔ s = 0) ∧
    (risk_level_of s = "Medium Risk" ↔ 1 ≤ s ∧ s ≤ 2) ∧
    (risk_level_of s = "High Risk" ↔ 3 ≤ s) := by
  unfold risk_level_of
  by_cases h3 : s ≥ 3 <;> by_cases h1 : s ≥ 1 <;> simp [h3, h1] <;> omega

lemma check_allergy_le (e : RuleEngine) (a b : Cell) : e.check_allergy_risk a b ≤ 3 := by
  unfold RuleEngine.check_allergy_risk
  dsimp only
  split <;> simp [RuleEngine.risk_rules, define_risk_rules]

lemma check_skincare_ok_le {e : RuleEngine} {a b c : Cell} {r : Nat}
    (h : e.check_skincare_risk a b c = .ok r) : r ≤ 2 := by
  unfold RuleEngine.check_skincare_risk at h
  split at h
  · cases c with
    | text s =>
      simp [Cell.pyLower, Bind.bind, Except.bind, pure, Except.pure] at h
      split at h <;> simp_all [RuleEngine.risk_rules, define_risk_rules] <;> omega
    | nan => simp [Cell.pyLower, Bind.bind, Except.bind] at h
  · simp [pure, Except.pure] at h; omega

lemma check_diet_ok_le {e : RuleEngine} {x : Option ℚ} {b c : Cell} {r : Nat}
    (h : e.check_diet_risk x b c = .ok r) : r ≤ 1 := by
  unfold RuleEngine.check_diet_risk at h
  split at h
  · cases c with
    | text s =>
      simp [Cell.pyLower, Bind.bind, Except.bind, pure, Except.pure] at h
      split at h <;> simp_all [RuleEngine.risk_rules, define_risk_rules] <;> omega
    | nan => simp [Cell.pyLower, Bind.bind, Except.bind] at h
  · simp [pure, Except.pure] at h; omega

lemma check_ingredient_le (e : RuleEngine) (c : Cell) :
    e.check_ingredient_risk_level c ≤ 3 := by
  unfold RuleEngine.check_ingredient_risk_level
  dsimp only
  split <;> simp [RuleEngine.risk_rules, define_risk_rules]

lemma assess_eff_of_checks {e : RuleEngine} {u : User} {t : Trend} {r2 r3 : Nat}
    (h2 : e.check_skincare_risk u.SkinType t.TrendType t.KeyIngredients = .ok r2)
    (h3 : e.check_diet_risk u.BMI t.TrendType t.KeyIngredients = .ok r3) :
    e.assess_risk_efficient u t =
      .ok (risk_level_score
        (max (max (max (e.check_allergy_risk u.Allergies t.KeyIngredients) r2) r3)
          (e.check_ingredient_risk_level t.KeyIngredients))) := by
  unfold RuleEngine.assess_risk_efficient
  rw [h2, h3]
  rfl

lemma assess_ok_elim {e : RuleEngine} {u : User} {t : Trend} {lvl : String} {s : Nat}
    (h : e.assess_risk_efficient u t = .ok (lvl, s)) :
    ∃ r2 r3,
      e.check_skincare_risk u.SkinType t.TrendType t.KeyIngredients = .ok r2 ∧
      e.check_diet_risk u.BMI t.TrendType t.KeyIngredients = .ok r3 ∧
      s = max (max (max (e.check_allergy_risk u.Allergies t.KeyIngredients) r2) r3)
            (e.check_ingredient_risk_level t.KeyIngredients) ∧
      lvl = risk_level_of s := by
  unfold RuleEngine.assess_risk_efficient at h
  cases h2 : e.check_skincare_risk u.SkinType t.TrendType t.KeyIngredients with
  | error err => rw [h2] at h; simp [Bind.bind, Except.bind] at h
  | ok r2 =>
    rw [h2] at h
    cases h3 : e.check_diet_risk u.BMI t.TrendType t.KeyIngredients with
    | error err => rw [h3] at h; simp [Bind.bind, Except.bind] at h
    | ok r3 =>
      rw [h3] at h
      simp [Bind.bind, Except.bind, pure, Except.pure, risk_level_score_eq] at h
      exact ⟨r2, r3, rfl, rfl, h.2.symm, by rw [h.2] at h; exact h.1.symm⟩

lemma mapExcept_ok_forall₂ {α β : Type} {f : α → Except String β} :
    ∀ {l : List α} {ys : List β}, mapExcept f l = .ok ys →
      List.Forall₂ (fun x y => f x = .ok y) l ys := by
  intro l
  induction l with
  | nil =>
    intro ys h
    unfold mapExcept at h
    cases h
    exact .nil
  | cons x xs ih =>
    intro ys h
    unfold mapExcept at h
    cases hf : f x with
    | error err => rw [hf] at h; simp [Bind.bind, Except.bind] at h
    | ok y =>
      rw [hf] at h
      cases hm : mapExcept f xs with
      | error err => rw [hm] at h; simp [Bind.bind, Except.bind] at h
      | ok ys' =>
        rw [hm] at h
        simp [Bind.bind, Except.bind, pure, Except.pure] at h
        cases h
        exact .cons hf (ih hm)

lemma forall₂_mem_left {α β : Type} {R : α → β → Prop} :
    ∀ {l : List α} {ys : List β}, List.Forall₂ R l ys → ∀ x ∈ l, ∃ y ∈ ys, R x y := by
  intro l ys h
  induction h with
  | nil => intro x hx; cases hx
  | cons hr _ ih =>
    intro x hx
    cases hx with
    | head => exact ⟨_, List.mem_cons_self .., hr⟩
    | tail _ hx =>
      obtain ⟨y, hy, hry⟩ := ih x hx
      exact ⟨y, List.mem_cons_of_mem _ hy, hry⟩

lemma forall₂_mem_right {α β : Type} {R : α → β → Prop} :
    ∀ {l : List α} {ys : List β}, List.Forall₂ R l ys → ∀ y ∈ ys, ∃ x ∈ l, R x y := by
  intro l ys h
  induction h with
  | nil => intro y hy; cases hy
  | cons hr _ ih =>
    intro y hy
    cases hy with
    | head => exact ⟨_, List.mem_cons_self .., hr⟩
    | tail _ hy =>
      obtain ⟨x, hx, hrx⟩ := ih y hy
      exact ⟨x, List.mem_cons_of_mem _ hx, hrx⟩

lemma makeRow_ok {e : RuleEngine} {u : User} {t : Trend} {row : RiskRow}
    (h : e.makeRow u t = .ok row) :
    e.assess_risk_efficient u t = .ok (row.RiskLevel, row.RiskScore) ∧
      row.UserID = u.UserID ∧ row.TrendName = t.TrendName := by
  unfold RuleEngine.makeRow at h
  cases ha : e.assess_risk_efficient u t with
  | error err => rw [ha] at h; simp [Bind.bind, Except.bind] at h
  | ok p =>
    rw [ha] at h
    obtain ⟨lvl, s⟩ := p
    simp [Bind.bind, Except.bind, pure, Except.pure] at h
    cases h
    exact ⟨rfl, rfl, rfl⟩

lemma generate_ok_structure {e : RuleEngine} {rows : List RiskRow}
    (h : e.generate_risk_matrix = .ok rows) :
    ∃ rowss,
      List.Forall₂ (fun u rs => mapExcept (fun t => e.makeRow u t) e.trends_df = .ok rs)
        e.users_df rowss ∧
      rows = rowss.flatten := by
  unfold RuleEngine.generate_risk_matrix at h
  cases hm : mapExcept (fun u => mapExcept (fun t => e.makeRow u t) e.trends_df) e.users_df with
  | error err => rw [hm] at h; simp [Bind.bind, Except.bind] at h
  | ok rowss =>
    rw [hm] at h
    simp [Bind.bind, Except.bind, pure, Except.pure] at h
    exact ⟨rowss, mapExcept_ok_forall₂ hm, h.symm⟩

lemma generate_ok_mem_pair {e : RuleEngine} {rows : List RiskRow} {u : User} {t : Trend}
    (h : e.generate_risk_matrix = .ok rows) (hu : u ∈ e.users_df) (ht : t ∈ e.trends_df) :
    ∃ row ∈ rows, e.makeRow u t = .ok row := by
  obtain ⟨rowss, hfa, hflat⟩ := generate_ok_structure h
  obtain ⟨rs, hrs, hmap⟩ := forall₂_mem_left hfa u hu
  obtain ⟨row, hrow, hmk⟩ := forall₂_mem_left (mapExcept_ok_forall₂ hmap) t ht
  exact ⟨row, hflat ▸ List.mem_flatten.mpr ⟨rs, hrs, hrow⟩, hmk⟩

lemma generate_ok_row_source {e : RuleEngine} {rows : List RiskRow} {row : RiskRow}
    (h : e.generate_risk_matrix = .ok rows) (hrow : row ∈ rows) :
    ∃ u ∈ e.users_df, ∃ t ∈ e.trends_df, e.makeRow u t = .ok row := by
  obtain ⟨rowss, hfa, hflat⟩ := generate_ok_structure h
  subst hflat
  obtain ⟨rs, hrs, hmem⟩ := List.mem_flatten.mp hrow
  obtain ⟨u, hu, hmap⟩ := forall₂_mem_right hfa rs hrs
  obtain ⟨t, ht, hmk⟩ := forall₂_mem_right (mapExcept_ok_forall₂ hmap) row hmem
  exact ⟨u, hu, t, ht, hmk⟩

lemma inner_keys {e : RuleEngine} {u : User} :
    ∀ {ts : List Trend} {rs : List RiskRow},
      List.Forall₂ (fun t row => e.makeRow u t = .ok row) ts rs →
      rs.map (fun r => (r.UserID, r.TrendName)) =
        ts.map (fun t => (u.UserID, t.TrendName)) := by
  intro ts rs h
  induction h with
  | nil => rfl
  | cons hr _ ih =>
    obtain ⟨-, hid, hname⟩ := makeRow_ok hr
    simp [ih, hid, hname]

lemma flatten_keys {e : RuleEngine} :
    ∀ {us : List User} {rowss : List (List RiskRow)},
      List.Forall₂ (fun u rs => mapExcept (fun t => e.makeRow u t) e.trends_df = .ok rs)
        us rowss →
      rowss.flatten.map (fun r => (r.UserID, r.TrendName)) =
        us.flatMap (fun u => e.trends_df.map (fun t => (u.UserID, t.TrendName))) := by
  intro us rowss h
  induction h with
  | nil => rfl
  | cons hr _ ih =>
    rw [List.flatten_cons, List.flatMap_cons, List.map_append, ih,
      inner_keys (mapExcept_ok_forall₂ hr)]

lemma flatMap_const_length {β : Type} (us : List User) (f : User → List β) (m : Nat)
    (hf : ∀ u, (f u).length = m) : (us.flatMap f).length = us.length * m := by
  induction us with
  | nil => simp
  | cons u us ih =>
    rw [List.flatMap_cons, List.length_append, ih, List.length_cons, hf u]
    ring

lemma nodup_key_product : ∀ (us : List User) (ts : List Trend),
    (us.map (fun u => u.UserID)).Nodup → (ts.map (fun t => t.TrendName)).Nodup →
    (us.flatMap (fun u => ts.map (fun t => (u.UserID, t.TrendName)))).Nodup := by
  intro us ts hu ht
  induction us with
  | nil => simp
  | cons u us ih =>
    rw [List.map_cons, List.nodup_cons] at hu
    rw [List.flatMap_cons, List.nodup_append]
    refine ⟨?_, ih hu.2, ?_⟩
    · have hrw : ts.map (fun t => (u.UserID, t.TrendName))
          = (ts.map (fun t => t.TrendName)).map (fun b => (u.UserID, b)) := by
        rw [List.map_map]; rfl
      rw [hrw]
      exact ht.map (fun b c h => congrArg Prod.snd h)
    · intro p hp hp'
      obtain ⟨t, -, rfl⟩ := List.mem_map.mp hp
      obtain ⟨u', hu', hmem⟩ := List.mem_flatMap.mp hp'
      obtain ⟨t'', -, hpair⟩ := List.mem_map.mp hmem
      apply hu.1
      rw [List.mem_map]
      exact ⟨u', hu', congrArg Prod.fst hpair⟩

lemma user_eq_of_nodup {us : List User} {u u' : User}
    (hn : (us.map (fun x => x.UserID)).Nodup) (h1 : u ∈ us) (h2 : u' ∈ us)
    (he : u.UserID = u'.UserID) : u = u' :=
  List.inj_on_of_nodup_map hn h1 h2 he

lemma trend_eq_of_nodup {ts : List Trend} {t t' : Trend}
    (hn : (ts.map (fun x => x.TrendName)).Nodup) (h1 : t ∈ ts) (h2 : t' ∈ ts)
    (he : t.TrendName = t'.TrendName) : t = t' :=
  List.inj_on_of_nodup_map hn h1 h2 he

lemma assess_risk_eq_of_found {e : RuleEngine} {uid tn : String} {u : User} {t : Trend}
    (hu : e.users_df.find? (fun x => x.UserID == uid) = some u)
    (ht : e.trends_df.find? (fun x => x.TrendName == tn) = some t) :
    e.assess_risk uid tn = e.assess_risk_efficient u t := by
  unfold RuleEngine.assess_risk
  rw [hu, ht]

lemma dummies_for_no_na (cols : List String) (c : Cell) :
    (dummies_for cols c).any (fun kv => kv.2.isNone) = false := by
  rw [List.any_eq_false]
  intro kv hkv
  obtain ⟨v, -, rfl⟩ := List.mem_map.mp hkv
  simp

lemma preprocess_hasNa {X : List XRow} {p : XProcessedRow}
    (hp : p ∈ preprocess_features X) :
    p.hasNa = (p.Age.isNone || p.BMI.isNone) := by
  unfold preprocess_features at hp
  obtain ⟨r, -, rfl⟩ := List.mem_map.mp hp
  unfold XProcessedRow.hasNa
  rw [dummies_for_no_na, dummies_for_no_na]
  simp

lemma zip_label_component {α : Type} (Xp : List α) (l : List RiskRow) :
    ∀ pr ∈ Xp.zip ((l.map (fun r => r.RiskLevel)).zip l), pr.2.1 = pr.2.2.RiskLevel := by
  intro pr hpr
  have h2 : pr.2 ∈ (l.map (fun r => r.RiskLevel)).zip l := (List.of_mem_zip hpr).2
  have hz : ∀ (m : List RiskRow), (m.map (fun r => r.RiskLevel)).zip m
      = m.map (fun r => (r.RiskLevel, r)) := by
    intro m
    induction m with
    | nil => rfl
    | cons r rs ih => simp [ih]
  rw [hz] at h2
  obtain ⟨r, -, hr⟩ := List.mem_map.mp h2
  rw [← hr]

lemma prepare_ok_elim {e : RuleEngine}
    {Xc : List XProcessedRow} {yenc : List Nat} {rc : List RiskRow}
    (h : prepare_training_data e = .ok (Xc, yenc, rc)) :
    ∃ risk_df, e.generate_risk_matrix = .ok risk_df ∧
      Xc = (((preprocess_features (risk_df.map selectXRow)).zip
              (((risk_df.map (fun r => r.RiskLevel))).zip risk_df)).filter
              (fun pr => !(pr.1.hasNa))).map (fun pr => pr.1) ∧
      yenc = (label_fit_transform
              ((((preprocess_features (risk_df.map selectXRow)).zip
                (((risk_df.map (fun r => r.RiskLevel))).zip risk_df)).filter
                (fun pr => !(pr.1.hasNa))).map (fun pr => pr.2.1))).2 ∧
      rc = (((preprocess_features (risk_df.map selectXRow)).zip
              (((risk_df.map (fun r => r.RiskLevel))).zip risk_df)).filter
              (fun pr => !(pr.1.hasNa))).map (fun pr => pr.2.2) := by
  unfold prepare_training_data at h
  cases hg : e.generate_risk_matrix with
  | error err => rw [hg] at h; simp [Bind.bind, Except.bind] at h
  | ok risk_df =>
    rw [hg] at h
    cases hemp : risk_df.isEmpty with
    | true => simp [Bind.bind, Except.bind, hemp] at h
    | false =>
      simp only [Bind.bind, Except.bind, hemp, Bool.false_eq_true, if_false, pure,
        Except.pure, Except.ok.injEq] at h
      rw [Prod.ext_iff] at h
      obtain ⟨h1, h23⟩ := h
      rw [Prod.ext_iff] at h23
      obtain ⟨h2, h3⟩ := h23
      exact ⟨risk_df, rfl, h1.symm, h2.symm, h3.symm⟩

/-! Concrete fixtures used by witnesses and counterexamples. -/

/-- A sensitive-skin user allergic to peanut. -/
def wUser : User :=
  { UserID := "U1", Age := some 25, BMI := some 32, SkinType := .text "Sensitive",
    Allergies := .text "peanut", HormoneLevel := .text "Normal" }

/-- A skincare trend whose ingredients hit both the allergy and the
skincare-mismatch rules for `wUser`. -/
def wTrend : Trend :=
  { TrendName := "T1", TrendType := .text "Skincare",
    KeyIngredients := .text "peanut, salicylic acid" }

def wEngine : RuleEngine :=
  { users_df := [wUser], trends_df := [wTrend], ingredient_risk_df := [] }

/-! The claim theorems. -/

/-- C1: for every (user, trend) pair assessed — via the single-pair entry
point `assess_risk` or as a row of `generate_risk_matrix` — the returned
RiskLevel is the pure threshold function of the returned RiskScore:
"Safe" iff score 0, "Medium Risk" iff 1 ≤ score ≤ 2, "High Risk" iff
score ≥ 3. -/
theorem C1_threshold_consistency (e : RuleEngine) :
    (∀ uid tn lvl s, e.assess_risk uid tn = .ok (lvl, s) →
      ((lvl = "Safe" ↔ s = 0) ∧ (lvl = "Medium Risk" ↔ 1 ≤ s ∧ s ≤ 2) ∧
        (lvl = "High Risk" ↔ 3 ≤ s))) ∧
    (∀ rows, e.generate_risk_matrix = .ok rows → ∀ r ∈ rows,
      ((r.RiskLevel = "Safe" ↔ r.RiskScore = 0) ∧
        (r.RiskLevel = "Medium Risk" ↔ 1 ≤ r.RiskScore ∧ r.RiskScore ≤ 2) ∧
        (r.RiskLevel = "High Risk" ↔ 3 ≤ r.RiskScore))) := by
  constructor
  · intro uid tn lvl s h
    unfold RuleEngine.assess_risk at h
    cases hu : e.users_df.find? (fun x => x.UserID == uid) with
    | none => rw [hu] at h; cases h
    | some u =>
      rw [hu] at h
      cases ht : e.trends_df.find? (fun x => x.TrendName == tn) with
      | none => rw [ht] at h; cases h
      | some t =>
        rw [ht] at h
        obtain ⟨r2, r3, -, -, -, hlvl⟩ := assess_ok_elim h
        subst hlvl
        exact risk_level_of_iffs s
  · intro rows hg r hr
    obtain ⟨u, -, t, -, hmk⟩ := generate_ok_row_source hg hr
    obtain ⟨ha, -, -⟩ := makeRow_ok hmk
    obtain ⟨r2, r3, -, -, -, hlvl⟩ := assess_ok_elim ha
    rw [hlvl]
    exact risk_level_of_iffs r.RiskScore

/-- Witness for C1 at a concrete engine: `wEngine.assess_risk "U1" "T1"`
evaluates to `("High Risk", 3)` and the three threshold equivalences hold
there. -/
theorem C1_witness :
    ("High Risk" = "Safe" ↔ (3 : Nat) = 0) ∧
    ("High Risk" = "Medium Risk" ↔ 1 ≤ (3 : Nat) ∧ (3 : Nat) ≤ 2) ∧
    ("High Risk" = "High Risk" ↔ 3 ≤ (3 : Nat)) :=
  (C1_threshold_consistency wEngine).1 "U1" "T1" "High Risk" 3 (by decide)

/-- C2: the RiskScore returned for a pair is the max — not the sum — of the
four rule outputs; in particular a pair for which the Allergy rule (3) and
the Skincare-mismatch rule (2) both fire scores exactly 3. -/
theorem C2_aggregation_max (e : RuleEngine) (u : User) (t : Trend) (r2 r3 : Nat)
    (h2 : e.check_skincare_risk u.SkinType t.TrendType t.KeyIngredients = .ok r2)
    (h3 : e.check_diet_risk u.BMI t.TrendType t.KeyIngredients = .ok r3) :
    e.assess_risk_efficient u t =
      .ok (risk_level_of
            (max (max (max (e.check_allergy_risk u.Allergies t.KeyIngredients) r2) r3)
              (e.check_ingredient_risk_level t.KeyIngredients)),
          max (max (max (e.check_allergy_risk u.Allergies t.KeyIngredients) r2) r3)
            (e.check_ingredient_risk_level t.KeyIngredients)) ∧
    (e.check_allergy_risk u.Allergies t.KeyIngredients = 3 → r2 = 2 →
      e.assess_risk_efficient u t = .ok ("High Risk", 3)) := by
  have hmain := assess_eff_of_checks h2 h3
  rw [risk_level_score_eq] at hmain
  refine ⟨hmain, ?_⟩
  intro ha1 hr2
  have hd := check_diet_ok_le h3
  have hi := check_ingredient_le e t.KeyIngredients
  have hmax : max (max (max (e.check_allergy_risk u.Allergies t.KeyIngredients) r2) r3)
      (e.check_ingredient_risk_level t.KeyIngredients) = 3 := by
    rw [ha1, hr2]
    omega
  rw [hmain, hmax]
  rfl

/-- Witness for C2 at the concrete fixture: for `wUser` and `wTrend` the
skincare check yields 2 and the diet check 0, and the conclusion holds. -/
theorem C2_witness :
    (wEngine.assess_risk_efficient wUser wTrend =
      .ok (risk_level_of
            (max (max (max (wEngine.check_allergy_risk wUser.Allergies wTrend.KeyIngredients) 2) 0)
              (wEngine.check_ingredient_risk_level wTrend.KeyIngredients)),
          max (max (max (wEngine.check_allergy_risk wUser.Allergies wTrend.KeyIngredients) 2) 0)
            (wEngine.check_ingredient_risk_level wTrend.KeyIngredients)) ∧
    (wEngine.check_allergy_risk wUser.Allergies wTrend.KeyIngredients = 3 → 2 = 2 →
      wEngine.assess_risk_efficient wUser wTrend = .ok ("High Risk", 3))) :=
  C2_aggregation_max wEngine wUser wTrend 2 0 (by decide) (by decide)

/-- Users fixture for the matrix-shaped witnesses. -/
def mUser1 : User :=
  { UserID := "U1", Age := some 25, BMI := some 22, SkinType := .text "Normal",
    Allergies := .text "none", HormoneLevel := .text "Low" }

def mUser2 : User :=
  { UserID := "U2", Age := some 40, BMI := some 31, SkinType := .text "Oily",
    Allergies := .text "soy", HormoneLevel := .text "High" }

def mTrend1 : Trend :=
  { TrendName := "T1", TrendType := .text "General", KeyIngredients := .text "water" }

def mTrend2 : Trend :=
  { TrendName := "T2", TrendType := .text "Dietary", KeyIngredients := .text "Detox Tea" }

def mEngine : RuleEngine :=
  { users_df := [mUser1, mUser2], trends_df := [mTrend1, mTrend2],
    ingredient_risk_df := [{ Ingredient := "Lead", RiskLevel := "High" }] }

/-- The four rows `mEngine.generate_risk_matrix` produces. -/
def mRows : List RiskRow :=
  [{ UserID := "U1", Age := some 25, BMI := some 22, SkinType := .text "Normal",
     Allergies := .text "none", HormoneLevel := .text "Low", TrendName := "T1",
     TrendType := .text "General", KeyIngredients := .text "water",
     RiskLevel := "Safe", RiskScore := 0 },
   { UserID := "U1", Age := some 25, BMI := some 22, SkinType := .text "Normal",
     Allergies := .text "none", HormoneLevel := .text "Low", TrendName := "T2",
     TrendType := .text "Dietary", KeyIngredients := .text "Detox Tea",
     RiskLevel := "Safe", RiskScore := 0 },
   { UserID := "U2", Age := some 40, BMI := some 31, SkinType := .text "Oily",
     Allergies := .text "soy", HormoneLevel := .text "High", TrendName := "T1",
     TrendType := .text "General", KeyIngredients := .text "water",
     RiskLevel := "Safe", RiskScore := 0 },
   { UserID := "U2", Age := some 40, BMI := some 31, SkinType := .text "Oily",
     Allergies := .text "soy", HormoneLevel := .text "High", TrendName := "T2",
     TrendType := .text "Dietary", KeyIngredients := .text "Detox Tea",
     RiskLevel := "Medium Risk", RiskScore := 1 }]

/-- C3: the generated matrix has exactly one row per ordered (user, trend)
pair — |Users| × |Trends| rows, keyed outer over users in table order and
inner over trends in table order, with no duplicate (UserID, TrendName)
pair when the table keys are unique. -/
theorem C3_matrix_completeness (e : RuleEngine) (rows : List RiskRow)
    (hg : e.generate_risk_matrix = .ok rows) :
    rows.length = e.users_df.length * e.trends_df.length ∧
    rows.map (fun r => (r.UserID, r.TrendName)) =
      e.users_df.flatMap (fun u => e.trends_df.map (fun t => (u.UserID, t.TrendName))) ∧
    ((e.users_df.map (fun u => u.UserID)).Nodup →
      (e.trends_df.map (fun t => t.TrendName)).Nodup →
      (rows.map (fun r => (r.UserID, r.TrendName))).Nodup) := by
  obtain ⟨rowss, hfa, hflat⟩ := generate_ok_structure hg
  subst hflat
  have hkeys := flatten_keys hfa
  refine ⟨?_, hkeys, ?_⟩
  · have hlen : (rowss.flatten.map (fun r => (r.UserID, r.TrendName))).length
        = rowss.flatten.length := List.length_map ..
    rw [← hlen, hkeys]
    exact flatMap_const_length _ _ _ (fun u => List.length_map ..)
  · intro hu ht
    rw [hkeys]
    exact nodup_key_product _ _ hu ht

/-- Witness for C3: the 2-user × 2-trend fixture yields the four expected
rows with the expected keys, count and no duplicates. -/
theorem C3_witness :
    mRows.length = mEngine.users_df.length * mEngine.trends_df.length ∧
    mRows.map (fun r => (r.UserID, r.TrendName)) =
      mEngine.users_df.flatMap
        (fun u => mEngine.trends_df.map (fun t => (u.UserID, t.TrendName))) ∧
    ((mEngine.users_df.map (fun u => u.UserID)).Nodup →
      (mEngine.trends_df.map (fun t => t.TrendName)).Nodup →
      (mRows.map (fun r => (r.UserID, r.TrendName))).Nodup) :=
  C3_matrix_completeness mEngine mRows (by decide)

/-- C4: with unique keys, when both lookups succeed the single-pair entry
point `assess_risk` returns exactly the (RiskLevel, RiskScore) of the
corresponding matrix row — such a row exists and every row keyed
(uid, tn) agrees with the lookup — and when either key is absent,
`assess_risk` fails with the lookup error instead of substituting a
result. -/
theorem C4_single_pair_lookup (e : RuleEngine) (uid tn : String) (u : User) (t : Trend)
    (rows : List RiskRow)
    (hu : e.users_df.find? (fun x => x.UserID == uid) = some u)
    (ht : e.trends_df.find? (fun x => x.TrendName == tn) = some t)
    (hg : e.generate_risk_matrix = .ok rows)
    (hnu : (e.users_df.map (fun x => x.UserID)).Nodup)
    (hnt : (e.trends_df.map (fun x => x.TrendName)).Nodup) :
    (∃ row ∈ rows, row.UserID = uid ∧ row.TrendName = tn ∧
        e.assess_risk uid tn = .ok (row.RiskLevel, row.RiskScore)) ∧
    (∀ row ∈ rows, row.UserID = uid → row.TrendName = tn →
        e.assess_risk uid tn = .ok (row.RiskLevel, row.RiskScore)) ∧
    (∀ uid' tn', e.users_df.find? (fun x => x.UserID == uid') = none →
        e.assess_risk uid' tn' =
          .error "IndexError: single positional indexer is out-of-bounds") ∧
    (∀ uid' tn', e.trends_df.find? (fun x => x.TrendName == tn') = none →
        e.assess_risk uid' tn' =
          .error "IndexError: single positional indexer is out-of-bounds") := by
  have huid : u.UserID = uid := by
    have := List.find?_some hu
    simpa using this
  have htn : t.TrendName = tn := by
    have := List.find?_some ht
    simpa using this
  have humem : u ∈ e.users_df := List.mem_of_find?_eq_some hu
  have htmem : t ∈ e.trends_df := List.mem_of_find?_eq_some ht
  have hlookup := assess_risk_eq_of_found hu ht
  refine ⟨?_, ?_, ?_, ?_⟩
  · obtain ⟨row, hrow, hmk⟩ := generate_ok_mem_pair hg humem htmem
    obtain ⟨ha, hid, hname⟩ := makeRow_ok hmk
    exact ⟨row, hrow, hid.trans huid, hname.trans htn, hlookup.trans ha⟩
  · intro row hrow hid hname
    obtain ⟨u', hu'mem, t', ht'mem, hmk⟩ := generate_ok_row_source hg hrow
    obtain ⟨ha, hid', hname'⟩ := makeRow_ok hmk
    have hueq : u = u' :=
      user_eq_of_nodup hnu humem hu'mem (huid.trans (hid.symm.trans hid'))
    have hteq : t = t' :=
      trend_eq_of_nodup hnt htmem ht'mem (htn.trans (hname.symm.trans hname'))
    rw [hlookup, hueq, hteq]
    exact ha
  · intro uid' tn' hnone
    unfold RuleEngine.assess_risk
    rw [hnone]
  · intro uid' tn' hnone
    unfold RuleEngine.assess_risk
    cases hu' : e.users_df.find? (fun x => x.UserID == uid') with
    | none => rfl
    | some u' => rw [hnone]

/-- Witness for C4 at the 2 × 2 fixture, looking up user "U2" against
trend "T2" (the Medium-Risk row). -/
theorem C4_witness :
    (∃ row ∈ mRows, row.UserID = "U2" ∧ row.TrendName = "T2" ∧
        mEngine.assess_risk "U2" "T2" = .ok (row.RiskLevel, row.RiskScore)) ∧
    (∀ row ∈ mRows, row.UserID = "U2" → row.TrendName = "T2" →
        mEngine.assess_risk "U2" "T2" = .ok (row.RiskLevel, row.RiskScore)) ∧
    (∀ uid' tn', mEngine.users_df.find? (fun x => x.UserID == uid') = none →
        mEngine.assess_risk uid' tn' =
          .error "IndexError: single positional indexer is out-of-bounds") ∧
    (∀ uid' tn', mEngine.trends_df.find? (fun x => x.TrendName == tn') = none →
        mEngine.assess_risk uid' tn' =
          .error "IndexError: single positional indexer is out-of-bounds") :=
  C4_single_pair_lookup mEngine "U2" "T2" mUser2 mTrend2 mRows
    (by decide) (by decide) (by decide) (by decide) (by decide)

/-- A user whose skin type arms the skincare check. -/
def badUser : User :=
  { UserID := "UX", Age := some 30, BMI := some 20, SkinType := .text "Sensitive",
    Allergies := .text "none", HormoneLevel := .text "Normal" }

/-- A skincare trend whose KeyIngredients cell is NaN (missing). -/
def badTrend : Trend :=
  { TrendName := "TX", TrendType := .text "Skincare", KeyIngredients := .nan }

def badEngine : RuleEngine :=
  { users_df := [badUser], trends_df := [badTrend], ingredient_risk_df := [] }

/-- C5 (refuting evaluation): the claim says malformed or missing text is
always degraded to an empty token set and never raises, but a NaN
`KeyIngredients` cell makes `check_skincare_risk` raise AttributeError
once its two guards hold — `.lower()` is called without `str()` — and the
whole matrix computation aborts; the `str()`-protected allergy check on
the same cell stays total. -/
theorem C5_nan_ingredients_raise :
    badEngine.check_skincare_risk (Cell.text "Sensitive") (Cell.text "Skincare") Cell.nan
      = .error "AttributeError: float object has no attribute lower" ∧
    badEngine.generate_risk_matrix
      = .error "AttributeError: float object has no attribute lower" ∧
    badEngine.check_allergy_risk (Cell.text "none") Cell.nan = 0 := by
  decide

/-- C6 (refuting evaluation and the confirmed half): `predict_risk` does
raise the Model-not-trained error when `self.model` is `None`, but after
training its result never depends on either feature-vector argument — the
source predicts on the hard-coded `[1, 0, 1]`. -/
theorem C6_predict_placeholder :
    (∀ uf tf, predict_risk { model := none } uf tf =
        .error "Exception: Model not trained yet.") ∧
    (∀ st uf tf uf' tf', predict_risk st uf tf = predict_risk st uf' tf') := by
  constructor
  · intro uf tf
    rfl
  · intro st uf tf uf' tf'
    cases st with
    | mk m => cases m <;> rfl

/-- C7 counterexample: with an unsupported model kind AND a table that
makes data preparation raise, `train_model` surfaces the preparation
error, not the Unsupported-configuration error — so the model-kind check
does not happen before the computation. -/
theorem C7_counterexample :
    train_model badEngine "svm"
      = .error "AttributeError: float object has no attribute lower" ∧
    ("AttributeError: float object has no attribute lower" : String)
      ≠ "ValueError: Unsupported model type." :=
  ⟨rfl, by decide⟩

/-- C7 as amended: for every model kind other than "random_forest",
`train_model` raises the Unsupported error with no fallback, but only
after `prepare_training_data` AND `train_test_split` have both run: an
error in either step — preparation raising on bad cells or an empty
matrix, or the split raising when fewer than two rows survive cleaning —
pre-empts the unsupported-kind error. -/
theorem C7_unsupported_after_prepare (e : RuleEngine) (mt : String)
    (h : mt ≠ "random_forest") :
    train_model e mt = (prepare_training_data e).bind
      (fun pr => (train_test_split pr.1 pr.2.1).bind
        (fun _ => Except.error "ValueError: Unsupported model type.")) := by
  unfold train_model
  cases hp : prepare_training_data e with
  | error err => rfl
  | ok triple =>
    obtain ⟨X, y, rc⟩ := triple
    cases hs : train_test_split X y with
    | error err => simp [Bind.bind, Except.bind, hs]
    | ok quad =>
      obtain ⟨Xtr, Xte, ytr, yte⟩ := quad
      simp [Bind.bind, Except.bind, hs, beq_eq_false_iff_ne.mpr h]

/-- Witness for C7-as-amended: requesting "svm" on the benign 2 × 2
fixture (four retained rows, so preparation and split both succeed)
fails with the Unsupported error. -/
theorem C7_witness :
    train_model mEngine "svm" = (prepare_training_data mEngine).bind
      (fun pr => (train_test_split pr.1 pr.2.1).bind
        (fun _ => Except.error "ValueError: Unsupported model type.")) :=
  C7_unsupported_after_prepare mEngine "svm" (by decide)

/-- C8 counterexample: for an empty-string Allergies cell the normalized
token set is empty, so the claim demands `HasAllergies = 0`, but the code
tests the whole lowercased string against "none"/"nan" and yields 1. -/
theorem C8_counterexample :
    ¬ ((hasAllergiesFlag (Cell.text "") = 1) ↔ tokenize (Cell.text "") ≠ []) := by
  decide

/-- C8 as amended: the feature table's HasAllergies column is pointwise
`hasAllergiesFlag` of the Allergies cell (the Allergies column itself is
dropped — `XProcessedRow` has no such field), and the flag is 1 exactly
when the lowercased `str()` of the cell is neither "none" nor "nan"; NaN
and case variants of "none" give 0. -/
theorem C8_has_allergies_flag (X : List XRow) :
    (preprocess_features X).map (fun p => p.HasAllergies)
        = X.map (fun r => some (hasAllergiesFlag r.Allergies)) ∧
    (∀ x : Cell, hasAllergiesFlag x = 1 ↔
        (strLower x.pyStr ≠ "none" ∧ strLower x.pyStr ≠ "nan")) ∧
    hasAllergiesFlag Cell.nan = 0 ∧ hasAllergiesFlag (Cell.text "NONE") = 0 := by
  refine ⟨?_, ?_, by decide, by decide⟩
  · unfold preprocess_features
    rw [List.map_map]
    rfl
  · intro x
    unfold hasAllergiesFlag
    split
    · rename_i hc
      simp only [Bool.and_eq_true, bne_iff_ne] at hc
      simp [hc]
    · rename_i hc
      simp only [Bool.and_eq_true, bne_iff_ne] at hc
      exact iff_of_false (by norm_num) hc

/-- A user whose SkinType cell is missing but whose numerics are present. -/
def c9User : User :=
  { UserID := "U1", Age := some 30, BMI := some 22, SkinType := Cell.nan,
    Allergies := .text "none", HormoneLevel := .text "Normal" }

def c9Trend : Trend :=
  { TrendName := "T1", TrendType := .text "General", KeyIngredients := .text "water" }

def c9eng : RuleEngine :=
  { users_df := [c9User], trends_df := [c9Trend], ingredient_risk_df := [] }

/-- The single processed feature row `prepare_training_data` keeps for
`c9eng`: the missing SkinType became an empty indicator set, not NaN. -/
def c9X : XProcessedRow :=
  { Age := some 30, BMI := some 22, SkinType_dummies := [],
    TrendType_dummies := [("General", some 1)], HasAllergies := some 0 }

/-- The matrix row retained alongside `c9X`. -/
def c9Row : RiskRow :=
  { UserID := "U1", Age := some 30, BMI := some 22, SkinType := Cell.nan,
    Allergies := .text "none", HormoneLevel := .text "Normal", TrendName := "T1",
    TrendType := .text "General", KeyIngredients := .text "water",
    RiskLevel := "Safe", RiskScore := 0 }

/-- C9 counterexample: the sole source row has a missing SkinType feature,
so the claim demands it be dropped (zero rows kept), yet preparation keeps
one row — one-hot encoding runs before `dropna`, turning the missing
category into all-zero indicators. -/
theorem C9_counterexample :
    c9eng.users_df.map (fun u => u.SkinType) = [Cell.nan] ∧
    (prepare_training_data c9eng).map (fun pr => pr.1.length) = .ok 1 := by
  decide

/-- C9 as amended: rows are dropped exactly when Age or BMI is missing —
the one-hot-encoded categorical columns and the HasAllergies column are
never NaN — and the identical row filter is applied to the labels and the
retained matrix, so after filtering the features, encoded labels and
retained matrix rows have equal cardinality and the encoded labels are
exactly the encoding of the retained rows' RiskLevels, index-aligned. -/
theorem C9_dropna_alignment (e : RuleEngine) (Xc : List XProcessedRow)
    (yenc : List Nat) (rc : List RiskRow)
    (h : prepare_training_data e = .ok (Xc, yenc, rc)) :
    Xc.length = yenc.length ∧ rc.length = Xc.length ∧
    yenc = (label_fit_transform (rc.map (fun r => r.RiskLevel))).2 ∧
    (∀ p ∈ Xc, p.hasNa = false) ∧
    (∀ (X : List XRow) (p : XProcessedRow), p ∈ preprocess_features X →
        p.hasNa = (p.Age.isNone || p.BMI.isNone)) := by
  obtain ⟨risk_df, hg, hX, hy, hr⟩ := prepare_ok_elim h
  have hyc : ((((preprocess_features (risk_df.map selectXRow)).zip
        (((risk_df.map (fun r => r.RiskLevel))).zip risk_df)).filter
        (fun pr => !(pr.1.hasNa))).map (fun pr => pr.2.1))
      = ((((preprocess_features (risk_df.map selectXRow)).zip
        (((risk_df.map (fun r => r.RiskLevel))).zip risk_df)).filter
        (fun pr => !(pr.1.hasNa))).map (fun pr => pr.2.2)).map
          (fun r => r.RiskLevel) := by
    rw [List.map_map]
    apply List.map_congr_left
    intro pr hpr
    exact zip_label_component _ _ pr (List.mem_of_mem_filter hpr)
  refine ⟨?_, ?_, ?_, ?_, ?_⟩
  · rw [hX, hy]
    simp [label_fit_transform]
  · rw [hX, hr]
    simp
  · rw [hy, hr, hyc]
  · intro p hp
    rw [hX] at hp
    obtain ⟨pr, hpr, rfl⟩ := List.mem_map.mp hp
    have hf := (List.mem_filter.mp hpr).2
    simpa using hf
  · intro X p hp
    exact preprocess_hasNa hp

/-- Witness for C9-as-amended at the `c9eng` fixture. -/
theorem C9_witness :
    [c9X].length = [0].length ∧ [c9Row].length = [c9X].length ∧
    [0] = (label_fit_transform ([c9Row].map (fun r => r.RiskLevel))).2 ∧
    (∀ p ∈ [c9X], p.hasNa = false) ∧
    (∀ (X : List XRow) (p : XProcessedRow), p ∈ preprocess_features X →
        p.hasNa = (p.Age.isNone || p.BMI.isNone)) :=
  C9_dropna_alignment c9eng [c9X] [0] [c9Row] (by decide)

/-- C10: duplicate keys do not make the single-pair lookup fail — it uses
the first matching row in table order and ignores every later row,
including any duplicates appended after the first match. -/
theorem C10_first_match_wins (users extra : List User) (trends textra : List Trend)
    (irs : List IngredientRisk) (uid tn : String) (u : User) (t : Trend)
    (hu : users.find? (fun x => x.UserID == uid) = some u)
    (ht : trends.find? (fun x => x.TrendName == tn) = some t) :
    RuleEngine.assess_risk ⟨users ++ extra, trends ++ textra, irs⟩ uid tn
      = RuleEngine.assess_risk ⟨users, trends, irs⟩ uid tn ∧
    RuleEngine.assess_risk ⟨users, trends, irs⟩ uid tn
      = RuleEngine.assess_risk_efficient ⟨users, trends, irs⟩ u t := by
  have hu' : (users ++ extra).find? (fun x => x.UserID == uid) = some u := by
    rw [List.find?_append, hu]
    rfl
  have ht' : (trends ++ textra).find? (fun x => x.TrendName == tn) = some t := by
    rw [List.find?_append, ht]
    rfl
  have h1 := @assess_risk_eq_of_found ⟨users ++ extra, trends ++ textra, irs⟩ uid tn u t hu' ht'
  have h2 := @assess_risk_eq_of_found ⟨users, trends, irs⟩ uid tn u t hu ht
  exact ⟨h1.trans h2.symm, h2⟩

/-- A duplicate of `mUser2`'s key with different attributes, to witness
that only the first matching row counts. -/
def dupUser : User :=
  { UserID := "U2", Age := some 99, BMI := some 50, SkinType := .text "Sensitive",
    Allergies := .text "water", HormoneLevel := .text "Low" }

/-- Witness for C10: appending a conflicting duplicate of "U2" and a
duplicate trend name changes nothing about the lookup. -/
theorem C10_witness :
    RuleEngine.assess_risk ⟨[mUser1, mUser2] ++ [dupUser], [mTrend1, mTrend2] ++ [mTrend2], []⟩ "U2" "T2"
      = RuleEngine.assess_risk ⟨[mUser1, mUser2], [mTrend1, mTrend2], []⟩ "U2" "T2" ∧
    RuleEngine.assess_risk ⟨[mUser1, mUser2], [mTrend1, mTrend2], []⟩ "U2" "T2"
      = RuleEngine.assess_risk_efficient ⟨[mUser1, mUser2], [mTrend1, mTrend2], []⟩ mUser2 mTrend2 :=
  C10_first_match_wins [mUser1, mUser2] [dupUser] [mTrend1, mTrend2] [mTrend2] []
    "U2" "T2" mUser2 mTrend2 (by decide) (by decide)

end IIHRA
